import Mathlib

set_option maxRecDepth 16384

/-!
Shallow embedding of the data acquisition / parsing / derivation pipeline of
`script.js` (SafeCoastPro coastal-flood dashboard), together with proofs of
the specified properties.

Modelling conventions:
* JS numbers are modelled as `ℚ`; `NaN` (the result of a failed `parseFloat`)
  is modelled as `none` in an `Option ℚ`.
* A CSV is modelled after line- and comma-splitting: a header of raw cell
  strings plus data rows.  For the forecast CSV each consulted data cell is
  represented by the result of `parseFloat` on its text; for the event CSV a
  cell keeps both its cleaned text and its `parseFloat` result.
* Asynchronous fetches are modelled by an environment mapping asset names to
  resolved URLs and URLs to outcomes; the per-call network activity is
  returned explicitly so that caching behaviour is observable.
-/

namespace SafeCoast

/-- `NUM_DAYS = 7` from script.js: the forecast horizon in days. -/
def NUM_DAYS : Nat := 7

/-- `TIME_INTERVAL_MINUTES = 10` from script.js. -/
def TIME_INTERVAL_MINUTES : Nat := 10

/-- `DATA_POINTS_PER_HOUR = 60 / TIME_INTERVAL_MINUTES = 6` from script.js. -/
def DATA_POINTS_PER_HOUR : Nat := 60 / TIME_INTERVAL_MINUTES

/-- `DATA_POINTS_PER_DAY = 24 * DATA_POINTS_PER_HOUR = 144` from script.js. -/
def DATA_POINTS_PER_DAY : Nat := 24 * DATA_POINTS_PER_HOUR

/-- A site record (`transformRawSites` output); only the fields consumed by the
parsing/aggregation pipeline are retained (`name`, `lat`, `lng` are
display-only). -/
structure Site where
  id : String
  threshold : ℚ
  risk_class : List ℚ
deriving DecidableEq

/-- JS comparison `x < arr[i]` where the index may be out of range: comparing
against `undefined` yields `false`. -/
def jsLtOpt (x : ℚ) : Option ℚ → Bool
  | some y => decide (x < y)
  | none => false

/-- `classifyRisk(twl, thresh, risk_classes)` from script.js:
`if (twl < thresh) return "No Flood"; if (twl < risk_classes[0]) return
"Warning"; if (twl < risk_classes[1]) return "High Risk"; return "Severe
Flood";`. -/
def classifyRisk (twl thresh : ℚ) (risk_classes : List ℚ) : String :=
  if twl < thresh then "No Flood"
  else if jsLtOpt twl risk_classes[0]? then "Warning"
  else if jsLtOpt twl risk_classes[1]? then "High Risk"
  else "Severe Flood"

/-- Ordinal rank of the four risk levels, for stating monotonicity. -/
def riskRank (r : String) : Nat :=
  if r = "No Flood" then 0
  else if r = "Warning" then 1
  else if r = "High Risk" then 2
  else 3

/-- `parseFloat(x.toFixed(3))` from script.js: rounding to 3 decimal places
(`Rat.floor` keeps the definition kernel-computable; `⌊q * 1000 + 1/2⌋` is
the standard round-half-up). -/
def round3 (q : ℚ) : ℚ := ((q * 1000 + 1 / 2).floor : ℤ) / 1000

/-- JS `s.toLowerCase()`, modelled characterwise. -/
def jsToLower (s : String) : String := ⟨s.data.map Char.toLower⟩

/-- JS `s.trim()`: strip whitespace from both ends. -/
def jsTrim (s : String) : String :=
  ⟨((s.data.dropWhile Char.isWhitespace).reverse.dropWhile
      Char.isWhitespace).reverse⟩

/-- Splitting a character list at a separator (auxiliary for `jsSplit`). -/
def splitCharAux (sep : Char) : List Char → List (List Char)
  | [] => [[]]
  | c :: cs =>
    match splitCharAux sep cs with
    | [] => [[c]]
    | r :: rs => if c = sep then [] :: r :: rs else (c :: r) :: rs

/-- JS `s.split(sep)` for a single-character separator. -/
def jsSplit (sep : Char) (s : String) : List String :=
  (splitCharAux sep s.data).map String.mk

/-- JS dash removal, `s.replace` with the global dash regex. -/
def jsStripDashes (s : String) : String := ⟨s.data.filter (fun c => c != '-')⟩

/-- A forecast CSV after splitting into lines and commas.  Each data cell is
represented by the result of JS `parseFloat` on its text (`none` = `NaN`);
the timestamp column is one of these cells (its value is stored by the code
but never consumed by the aggregation). -/
structure ForecastCSV where
  header : List String
  rows : List (List (Option ℚ))

/-- `header.findIndex(h => h.trim().toLowerCase() === 'total_water_level')`
from `parseForecastCSV`, as an `Option`al index (`none` = `-1`). -/
def twlColumnIndex (header : List String) : Option Nat :=
  header.findIdx? (fun h => jsToLower (jsTrim h) == "total_water_level")

/-- The retained rows of `parseForecastCSV`: a row contributes iff
`cols.length > twlColumnIndex` and `parseFloat(cols[twlColumnIndex])` is not
`NaN`; the retained values keep their order. -/
def rawTWLData (rows : List (List (Option ℚ))) (twlIdx : Nat) : List ℚ :=
  rows.filterMap (fun cols => (cols[twlIdx]?).join)

/-- One element of the `dailyData` array built by `parseForecastCSV`. -/
structure DailyEntry where
  date : String
  fullDate : String
  max_water_level : ℚ
  risk : String
deriving DecidableEq

/-- The entry pushed onto `dailyData` for day `i` with window `dayTWLData`:
`max_twl` is `reduce(Math.max, 0)` over the window, risk is classified
against the site thresholds, the date labels come from `getForecastDate`
(abstracted as `gfd`, it reads only globals). -/
def mkDailyEntry (site : Site) (gfd : Nat → String) (i : Nat) (window : List ℚ) :
    DailyEntry :=
  let max_twl := window.foldl (fun m q => max m q) 0
  let fullDate := gfd i
  { date := jsTrim ((jsSplit ',' fullDate).getD 1 "")
    fullDate := fullDate
    max_water_level := round3 max_twl
    risk := classifyRisk max_twl site.threshold site.risk_class }

/-- The daily loop of `parseForecastCSV`: for `i` from the current index while
`rem` days remain, slice `rawTWLData[i*144 : (i+1)*144]`; if the slice has
fewer than `144/4 = 36` points, `break`; otherwise emit the day's entry and
continue. -/
def dailyAux (site : Site) (gfd : Nat → String) (raw : List ℚ) :
    Nat → Nat → List DailyEntry
  | _, 0 => []
  | i, rem + 1 =>
    let window := (raw.drop (i * DATA_POINTS_PER_DAY)).take DATA_POINTS_PER_DAY
    if window.length < DATA_POINTS_PER_DAY / 4 then []
    else mkDailyEntry site gfd i window :: dailyAux site gfd raw (i + 1) rem

/-- The `{daily, hourly}` result of `parseForecastCSV`. -/
structure ForecastSeries where
  daily : List DailyEntry
  hourly : List ℚ
deriving DecidableEq

/-- `parseForecastCSV(csvText, site)` from script.js.  `lines.length < 2`
(no data rows) returns empty series; a missing `total_water_level` column
returns empty series; otherwise the daily summaries come from the windowed
loop and the hourly series takes every 6th retained sample, rounded to 3
decimals. -/
def parseForecastCSV (csv : ForecastCSV) (site : Site) (gfd : Nat → String) :
    ForecastSeries :=
  if csv.rows.isEmpty then { daily := [], hourly := [] }
  else
    match twlColumnIndex csv.header with
    | none => { daily := [], hourly := [] }
    | some idx =>
      let raw := rawTWLData csv.rows idx
      { daily := dailyAux site gfd raw 0 NUM_DAYS
        hourly := (raw.enum.filter (fun p => p.1 % DATA_POINTS_PER_HOUR == 0)).map
          (fun p => round3 p.2) }

/-- A cell of the historical-event CSV: `text` is the cell after the code's
quote-stripping and trimming, `num` is the result of JS `parseFloat` on that
text (`none` = `NaN`). -/
structure Cell where
  text : String
  num : Option ℚ
deriving DecidableEq

/-- The historical-event CSV after splitting into lines and commas (header
cells are given before the code's `.trim().toLowerCase()` normalisation,
which is applied by `findCol`; the code's global quote-strip of the header
line is part of the representation). -/
structure XtremCSV where
  header : List String
  rows : List (List Cell)

/-- JS `h.includes(key)`: substring containment. -/
def jsIncludes (h key : String) : Bool := decide (key.toList <:+: h.toList)

/-- `header.findIndex(h => h.includes(key))` over the normalised header of
`parseXtremEventCSV` (`none` = `-1`). -/
def findCol (header : List String) (key : String) : Option Nat :=
  (header.map (fun h => jsToLower (jsTrim h))).findIdx? (fun h => jsIncludes h key)

/-- The column-index mapping computed at the top of `parseXtremEventCSV`. -/
structure XtremColIdx where
  dateIdx : Option Nat
  twlIdx : Option Nat
  tideIdx : Option Nat
  surgeIdx : Option Nat
  runupIdx : Option Nat
  hsIdx : Option Nat
  durIdx : Option Nat

/-- All seven `findIndex` calls of `parseXtremEventCSV`. -/
def xtremColIdx (header : List String) : XtremColIdx :=
  { dateIdx := findCol header "peak_date_time"
    twlIdx := findCol header "peak_value"
    tideIdx := findCol header "tide"
    surgeIdx := findCol header "ssh"
    runupIdx := findCol header "runup"
    hsIdx := findCol header "significant"
    durIdx := findCol header "duration_hours" }

/-- `parseFloat(cols[idx]?.trim().replace(/"/g,'')) || 0` from
`parseXtremEventCSV`: a missing column (`idx = -1`), an out-of-range index,
or a `NaN` parse all default to `0`. -/
def numAt (cols : List Cell) (idx : Option Nat) : ℚ :=
  ((idx.bind (fun i => cols[i]?)).bind Cell.num).getD 0

/-- `cols[idx]?.trim().replace(/"/g,'')` as a string: `none` models the JS
`undefined` obtained when the row is shorter than the column index. -/
def textAt (cols : List Cell) (idx : Option Nat) : Option String :=
  (idx.bind (fun i => cols[i]?)).map Cell.text

/-- A retained historical event (the `name` display string, built by
`toFixed(2)` formatting, is omitted: it is never consumed by the logic under
specification). -/
structure HistoricalEvent where
  id : String
  twl_components : List ℚ
  twl_peak : ℚ
  Hs : ℚ
  dur_h : ℚ
deriving DecidableEq

/-- The surge value after the residual correction of `parseXtremEventCSV`,
given the already-extracted peak value `twlPeak`:
`if (surgeIdx === -1 || surge <= 0 || (surge + tide + runup) > twlPeak * 1.05)
 surge = parseFloat((twlPeak - tide - runup).toFixed(3));`. -/
def xtremSurge (c : XtremColIdx) (cols : List Cell) (twlPeak : ℚ) : ℚ :=
  let tide := numAt cols c.tideIdx
  let surge := numAt cols c.surgeIdx
  let runup := numAt cols c.runupIdx
  if c.surgeIdx = none ∨ surge ≤ 0 ∨ surge + tide + runup > twlPeak * (105 / 100)
  then round3 (twlPeak - tide - runup)
  else surge

/-- Processing of one data row of `parseXtremEventCSV`.  When the peak cell is
missing or parses to `NaN`, the final filter `!isNaN(twlPeak)` rejects the
row whatever the surge correction computed (`NaN` comparisons are all
false), so such a row is rejected up front here.  Otherwise the row becomes
an event iff the date string is present and non-empty, `twlPeak > 0`, and
tide, corrected surge and runup are all `≥ 0`. -/
def parseXtremRow (c : XtremColIdx) (cols : List Cell) : Option HistoricalEvent :=
  match (c.twlIdx.bind (fun i => cols[i]?)).bind Cell.num with
  | none => none
  | some twlPeak =>
    let tide := numAt cols c.tideIdx
    let runup := numAt cols c.runupIdx
    let surge := xtremSurge c cols twlPeak
    match textAt cols c.dateIdx with
    | none => none
    | some dateStr =>
      if dateStr ≠ "" ∧ 0 < twlPeak ∧ 0 ≤ tide ∧ 0 ≤ surge ∧ 0 ≤ runup then
        some { id := dateStr
               twl_components := [tide, surge, runup]
               twl_peak := twlPeak
               Hs := numAt cols c.hsIdx
               dur_h := numAt cols c.durIdx }
      else none

/-- `parseXtremEventCSV(csvText)` from script.js: empty when there are no data
rows or when the required date / peak-value columns are absent, otherwise
the retained events of the data rows in order. -/
def parseXtremEventCSV (csv : XtremCSV) : List HistoricalEvent :=
  if csv.rows.isEmpty then []
  else
    let c := xtremColIdx csv.header
    if c.dateIdx = none ∨ c.twlIdx = none then []
    else csv.rows.filterMap (parseXtremRow c)

/-- The `{count, events}` catalog cached per site. -/
structure EventCatalog where
  count : Nat
  events : List HistoricalEvent
deriving DecidableEq

/-- The canonical empty result `{count: 0, events: []}`. -/
def emptyCatalog : EventCatalog := { count := 0, events := [] }

/-- `events.sort((a, b) => new Date(b.id) - new Date(a.id))` from
`fetchAndParseXtremEvents`: a stable sort by the date key descending, where
`dateKey` abstracts `new Date(s).getTime()`. -/
def sortEventsByDateDesc (dateKey : String → ℚ) (events : List HistoricalEvent) :
    List HistoricalEvent :=
  events.mergeSort (fun a b => decide (dateKey b.id ≤ dateKey a.id))

/-- Outcome of `fetch` on an event-catalog URL: `ok` carries the already
split CSV body, `httpError` models `!response.ok`, `networkError` models a
thrown fetch. -/
inductive FetchOutcome where
  | ok (body : XtremCSV)
  | httpError (status : Nat)
  | networkError

/-- Environment for the event-catalog pipeline: `assetUrl` is
`getAssetDownloadUrl` (resolved release asset URL or `null`), `fetchOutcome`
the network behaviour per URL, `dateKey` the timestamp of `new Date` on a
date string. -/
structure XtremEnv where
  assetUrl : String → Option String
  fetchOutcome : String → FetchOutcome
  dateKey : String → ℚ

/-- `EVENT_DATA_CACHE`, as an association list from site id to catalog. -/
abbrev EventCache := List (String × EventCatalog)

/-- Result of one call to `fetchAndParseXtremEvents`: the returned catalog,
the cache afterwards, and the number of event-asset network fetches the
call issued. -/
structure FetchEventsResult where
  catalog : EventCatalog
  cache : EventCache
  fetches : Nat
deriving DecidableEq

/-- `Xtrem_all_var_${siteId}.csv`. -/
def xtremAssetName (siteId : String) : String :=
  "Xtrem_all_var_" ++ siteId ++ ".csv"

/-- `fetchAndParseXtremEvents(siteId)` from script.js: return the cached
catalog if present; otherwise resolve the asset (failure caches and returns
the empty catalog with no event fetch), fetch it (HTTP or network failure
caches and returns the empty catalog), and on success parse, sort by date
descending, cache and return `{count: events.length, events}`. -/
def fetchAndParseXtremEvents (env : XtremEnv) (cache : EventCache)
    (siteId : String) : FetchEventsResult :=
  match cache.lookup siteId with
  | some c => { catalog := c, cache := cache, fetches := 0 }
  | none =>
    match env.assetUrl (xtremAssetName siteId) with
    | none =>
      { catalog := emptyCatalog, cache := (siteId, emptyCatalog) :: cache
        fetches := 0 }
    | some url =>
      match env.fetchOutcome url with
      | .ok csv =>
        let events := sortEventsByDateDesc env.dateKey (parseXtremEventCSV csv)
        let result : EventCatalog := { count := events.length, events := events }
        { catalog := result, cache := (siteId, result) :: cache, fetches := 1 }
      | .httpError _ =>
        { catalog := emptyCatalog, cache := (siteId, emptyCatalog) :: cache
          fetches := 1 }
      | .networkError =>
        { catalog := emptyCatalog, cache := (siteId, emptyCatalog) :: cache
          fetches := 1 }

/-- `getSiteEvents(siteId)` from script.js: delegates to
`fetchAndParseXtremEvents`. -/
def getSiteEvents (env : XtremEnv) (cache : EventCache) (siteId : String) :
    FetchEventsResult :=
  fetchAndParseXtremEvents env cache siteId

/-- Outcome of `fetch` on a forecast URL. -/
inductive ForecastFetchOutcome where
  | ok (body : ForecastCSV)
  | httpError (status : Nat)
  | networkError

/-- Environment for `fetchAndParseForecast`: asset resolution, network
behaviour, and the `getForecastDate` date formatter (reads only globals). -/
structure ForecastEnv where
  assetUrl : String → Option String
  fetchOutcome : String → ForecastFetchOutcome
  gfd : Nat → String

/-- `all_twl_data_${shortId}_${runDate}.csv` where `shortId` is the last
`_`-segment of the site id and `runDate` is `SELECTED_RUN_DATE` with the
dashes removed. -/
def forecastAssetName (runDateRaw : String) (site : Site) : String :=
  "all_twl_data_" ++ (jsSplit '_' site.id).getLastD "" ++ "_"
    ++ jsStripDashes runDateRaw ++ ".csv"

/-- Result of one call to `fetchAndParseForecast`: the forecast series
assigned to the site and the list of URLs the call fetched, in order. -/
structure ForecastFetchResult where
  forecastData : ForecastSeries
  fetchedUrls : List String
deriving DecidableEq

/-- `fetchAndParseForecast(site)` from script.js: resolve the asset name; if
resolution returns `null`, return empty data (no fetch at all); otherwise
fetch the resolved URL once, returning empty data on a non-ok status or a
network fault, and the parsed CSV on success.  There is no second attempt
against any local path. -/
def fetchAndParseForecast (env : ForecastEnv) (runDateRaw : String)
    (site : Site) : ForecastFetchResult :=
  match env.assetUrl (forecastAssetName runDateRaw site) with
  | none => { forecastData := { daily := [], hourly := [] }, fetchedUrls := [] }
  | some finalUrl =>
    match env.fetchOutcome finalUrl with
    | .ok csv =>
      { forecastData := parseForecastCSV csv site env.gfd
        fetchedUrls := [finalUrl] }
    | .httpError _ =>
      { forecastData := { daily := [], hourly := [] }, fetchedUrls := [finalUrl] }
    | .networkError =>
      { forecastData := { daily := [], hourly := [] }, fetchedUrls := [finalUrl] }

/-- `CONFIG.SITES_FILENAME`. -/
def SITES_FILENAME : String := "sites_file.json"

/-- `CONFIG.DATA_BASE_PATH`. -/
def DATA_BASE_PATH : String := "./"

/-- Outcome of `fetch` on the sites-configuration URL (the JSON body itself
is consumed by out-of-scope code, so only success/failure is modelled). -/
inductive SitesFetchOutcome where
  | ok
  | httpError (status : Nat)
  | networkError

/-- Environment for the sites-configuration load of
`fetchAndProcessAllSites`. -/
structure SitesEnv where
  assetUrl : String → Option String
  fetchOutcome : String → SitesFetchOutcome

/-- The `throw new Error(...)` message of `fetchAndProcessAllSites`:
`Failed to load ${sitesFilename}. Final URL tried: ${finalLoadUrl}.
Status: ${status}` (the `statusText` suffix is absorbed into the status
rendering). -/
def mkSitesLoadError (url : String) (status : Nat) : String :=
  "Failed to load " ++ SITES_FILENAME ++ ". Final URL tried: " ++ url
    ++ ". Status: " ++ toString status

/-- Result of the sites-configuration load: either the URL the configuration
was successfully read from, or the error message surfaced to the catch
block; plus the list of URLs fetched, in order. -/
structure SitesLoadResult where
  outcome : Except String String
  fetchedUrls : List String

/-- The sites-configuration loading portion of `fetchAndProcessAllSites`:
prefer the resolved GitHub URL, else the local path; on a non-ok status
from the GitHub URL retry once against the local path, throwing a
descriptive error when that also has a non-ok status; a non-ok status on
the local path as first attempt throws directly; a thrown fetch (network
fault) propagates to the outer catch without a local retry. -/
def loadSitesConfig (env : SitesEnv) : SitesLoadResult :=
  let githubSitesUrl := env.assetUrl SITES_FILENAME
  let localSitesUrl := DATA_BASE_PATH ++ SITES_FILENAME
  let finalSitesUrl := githubSitesUrl.getD localSitesUrl
  match env.fetchOutcome finalSitesUrl with
  | .ok => { outcome := .ok finalSitesUrl, fetchedUrls := [finalSitesUrl] }
  | .networkError =>
    { outcome := .error "network error", fetchedUrls := [finalSitesUrl] }
  | .httpError status =>
    if githubSitesUrl.isSome then
      match env.fetchOutcome localSitesUrl with
      | .ok => { outcome := .ok localSitesUrl
                 fetchedUrls := [finalSitesUrl, localSitesUrl] }
      | .networkError =>
        { outcome := .error "network error"
          fetchedUrls := [finalSitesUrl, localSitesUrl] }
      | .httpError s2 =>
        { outcome := .error (mkSitesLoadError localSitesUrl s2)
          fetchedUrls := [finalSitesUrl, localSitesUrl] }
    else
      { outcome := .error (mkSitesLoadError finalSitesUrl status)
        fetchedUrls := [finalSitesUrl] }

/-!  Concrete inputs used by witnesses and counterexamples. -/

/-- A concrete site. -/
def siteTogo : Site :=
  { id := "TWL_Baguida_TOGO", threshold := 1, risk_class := [2, 3] }

/-- A concrete `getForecastDate` stand-in. -/
def gfdConst : Nat → String := fun _ => "Monday, Jan 1, 2025"

/-- A forecast CSV body of `n` rows whose TWL column holds `q`. -/
def mkForecastCSV (n : Nat) (q : ℚ) : ForecastCSV :=
  { header := ["timestamp", "total_water_level"]
    rows := List.replicate n [none, some q] }

/-- An event CSV with no surge (`ssh`) column: one row with `tide = 1.0`,
`runup = 0.3`, `twl_peak = 1.5`. -/
def csvSurgeAbsent : XtremCSV :=
  { header := ["peak_date_time", "peak_value", "tide_10min", "wave_runup"]
    rows := [[⟨"2021-05-04", none⟩, ⟨"1.5", some (3 / 2)⟩, ⟨"1.0", some 1⟩,
      ⟨"0.3", some (3 / 10)⟩]] }

/-- The event that `csvSurgeAbsent` parses to: surge is the rounded residual
`1.5 - 1.0 - 0.3 = 0.2`. -/
def eventSurgeResidual : HistoricalEvent :=
  { id := "2021-05-04", twl_components := [1, 1 / 5, 3 / 10], twl_peak := 3 / 2
    Hs := 0, dur_h := 0 }

/-- An event CSV whose single row has `twl_peak = -1` and otherwise benign
fields. -/
def csvNegPeak : XtremCSV :=
  { header := ["peak_date_time", "peak_value", "tide_10min", "ssh_10min",
      "wave_runup"]
    rows := [[⟨"2020-01-01", none⟩, ⟨"-1", some (-1)⟩, ⟨"0.5", some (1 / 2)⟩,
      ⟨"0.4", some (2 / 5)⟩, ⟨"0.1", some (1 / 10)⟩]] }

/-- The single data row of `csvSurgeAbsent`. -/
def rowSA : List Cell := csvSurgeAbsent.rows.getD 0 []

/-- The column-index mapping of `csvSurgeAbsent`. -/
def colsSA : XtremColIdx := xtremColIdx csvSurgeAbsent.header

/-- An event environment in which every asset resolves and every fetch
delivers `csvSurgeAbsent`. -/
def envTogo : XtremEnv :=
  { assetUrl := fun _ => some "https://release/TOGO.csv"
    fetchOutcome := fun _ => FetchOutcome.ok csvSurgeAbsent
    dateKey := fun _ => 0 }

/-- A forecast environment in which asset resolution always fails. -/
def envNoAssets : ForecastEnv :=
  { assetUrl := fun _ => none
    fetchOutcome := fun _ => ForecastFetchOutcome.networkError
    gfd := gfdConst }

/-- A sites environment in which the GitHub URL resolves but both the remote
fetch (404) and the local fetch (500) fail. -/
def envSitesBothFail : SitesEnv :=
  { assetUrl := fun _ => some "https://release/sites_file.json"
    fetchOutcome := fun u =>
      if u = "https://release/sites_file.json" then SitesFetchOutcome.httpError 404
      else SitesFetchOutcome.httpError 500 }

/-- An event environment in which every asset resolves but every fetch
returns an HTTP error. -/
def envXtremHttpFail : XtremEnv :=
  { assetUrl := fun _ => some "https://release/TOGO.csv"
    fetchOutcome := fun _ => FetchOutcome.httpError 404
    dateKey := fun _ => 0 }

/-- A forecast environment in which every asset resolves but every fetch
throws a network fault. -/
def envForecastNetFail : ForecastEnv :=
  { assetUrl := fun _ => some "https://release/twl.csv"
    fetchOutcome := fun _ => ForecastFetchOutcome.networkError
    gfd := gfdConst }

/-!  ## Helper lemmas -/

/-- `classifyRisk` on a two-element risk class is a plain three-threshold
step function. -/
theorem classifyRisk_pair (v t h s : ℚ) :
    classifyRisk v t [h, s] =
      if v < t then "No Flood"
      else if v < h then "Warning"
      else if v < s then "High Risk"
      else "Severe Flood" := by
  simp [classifyRisk, jsLtOpt]

/-- The rank of the classification as a three-threshold step function. -/
theorem riskRank_classifyRisk (v t h s : ℚ) :
    riskRank (classifyRisk v t [h, s]) =
      if v < t then 0 else if v < h then 1 else if v < s then 2 else 3 := by
  rw [classifyRisk_pair]
  split_ifs <;> rfl

/-!  ## C2: the risk classifier -/

/-- C2: `classifyRisk(v, t, [h, s])` with `t < h < s` is a pure total step
function: it returns "No Flood" iff `v < t`, "Warning" iff `t ≤ v < h`,
"High Risk" iff `h ≤ v < s`, and "Severe Flood" iff `v ≥ s`; it is
monotonically non-decreasing in `v`, and each band bound falls into the
higher band: `classifyRisk t t [h,s] = "Warning"`,
`classifyRisk h t [h,s] = "High Risk"`,
`classifyRisk s t [h,s] = "Severe Flood"`. -/
theorem claim_C2_classifyRisk_step (v t h s : ℚ) (hth : t < h) (hhs : h < s) :
    (classifyRisk v t [h, s] = "No Flood" ↔ v < t) ∧
    (classifyRisk v t [h, s] = "Warning" ↔ t ≤ v ∧ v < h) ∧
    (classifyRisk v t [h, s] = "High Risk" ↔ h ≤ v ∧ v < s) ∧
    (classifyRisk v t [h, s] = "Severe Flood" ↔ s ≤ v) ∧
    (∀ w, v ≤ w →
      riskRank (classifyRisk v t [h, s]) ≤ riskRank (classifyRisk w t [h, s])) ∧
    classifyRisk t t [h, s] = "Warning" ∧
    classifyRisk h t [h, s] = "High Risk" ∧
    classifyRisk s t [h, s] = "Severe Flood" := by
  refine ⟨?_, ?_, ?_, ?_, ?_, ?_, ?_, ?_⟩
  · rw [classifyRisk_pair]
    split_ifs with h1 h2 h3 <;> simp_all <;> linarith
  · rw [classifyRisk_pair]
    split_ifs with h1 h2 h3 <;> simp_all <;> intro h' <;> linarith
  · rw [classifyRisk_pair]
    split_ifs with h1 h2 h3 <;> simp_all <;> intro h' <;> linarith
  · rw [classifyRisk_pair]
    split_ifs with h1 h2 h3 <;> simp_all <;> linarith
  · intro w hvw
    rw [riskRank_classifyRisk, riskRank_classifyRisk]
    split_ifs <;> first | omega | (exfalso; linarith)
  · rw [classifyRisk_pair, if_neg (lt_irrefl t), if_pos hth]
  · rw [classifyRisk_pair, if_neg (by linarith : ¬h < t), if_neg (lt_irrefl h),
      if_pos hhs]
  · rw [classifyRisk_pair, if_neg (by linarith : ¬s < t),
      if_neg (by linarith : ¬s < h), if_neg (lt_irrefl s)]

/-- Witness for C2 at `v = 0, t = 1, h = 2, s = 3`. -/
theorem claim_C2_witness :
    (0:ℚ) < 1 ∧ (1:ℚ) < 2 ∧ (2:ℚ) < 3 ∧
    classifyRisk 1 1 [2, 3] = "Warning" ∧
    classifyRisk 2 1 [2, 3] = "High Risk" ∧
    classifyRisk 3 1 [2, 3] = "Severe Flood" :=
  ⟨by norm_num, by norm_num, by norm_num,
    (claim_C2_classifyRisk_step 0 1 2 3 (by norm_num) (by norm_num)).2.2.2.2.2.1,
    (claim_C2_classifyRisk_step 0 1 2 3 (by norm_num) (by norm_num)).2.2.2.2.2.2.1,
    (claim_C2_classifyRisk_step 0 1 2 3 (by norm_num) (by norm_num)).2.2.2.2.2.2.2⟩

/-!  ## Length lemmas for the forecast aggregation -/

/-- Length of one day's window. -/
theorem window_length (raw : List ℚ) (i : Nat) :
    ((raw.drop (i * DATA_POINTS_PER_DAY)).take DATA_POINTS_PER_DAY).length
      = min 144 (raw.length - i * 144) := by
  simp [List.length_take, List.length_drop, DATA_POINTS_PER_DAY,
    DATA_POINTS_PER_HOUR, TIME_INTERVAL_MINUTES]

/-- The daily loop emits `min rem ((raw.length + 108) / 144 - i)` entries from
day `i` on: a day is kept iff its window holds at least `36` points, i.e.
iff `raw.length ≥ 144 * day + 36`. -/
theorem dailyAux_length (site : Site) (gfd : Nat → String) (raw : List ℚ) :
    ∀ (rem i : Nat),
      (dailyAux site gfd raw i rem).length = min rem ((raw.length + 108) / 144 - i)
  | 0, i => by simp [dailyAux]
  | rem + 1, i => by
    rw [dailyAux]
    have hw := window_length raw i
    split_ifs with hlt
    · rw [hw] at hlt
      have h36 : DATA_POINTS_PER_DAY / 4 = 36 := by rfl
      rw [h36] at hlt
      simp only [List.length_nil]
      omega
    · rw [hw] at hlt
      have h36 : DATA_POINTS_PER_DAY / 4 = 36 := by rfl
      rw [h36] at hlt
      simp only [List.length_cons, dailyAux_length site gfd raw rem (i + 1)]
      omega

/-- Counting multiples of 6 below `n`. -/
theorem range_filter_mod6_length (n : Nat) :
    ((List.range n).filter (fun i => i % 6 == 0)).length = (n + 5) / 6 := by
  induction n with
  | zero => rfl
  | succ m ih =>
    rw [List.range_succ, List.filter_append, List.length_append, ih]
    by_cases h : m % 6 = 0
    · have hb : (m % 6 == 0) = true := by simpa using h
      simp only [List.filter, hb, List.length_cons, List.length_nil]
      omega
    · have hb : (m % 6 == 0) = false := by simpa using h
      simp only [List.filter, hb, List.length_nil]
      omega

/-- The hourly series of `parseForecastCSV` has `⌈raw.length / 6⌉` samples. -/
theorem hourly_length (raw : List ℚ) :
    ((raw.enum.filter (fun p => p.1 % DATA_POINTS_PER_HOUR == 0)).map
        (fun p => round3 p.2)).length = (raw.length + 5) / 6 := by
  have h6 : DATA_POINTS_PER_HOUR = 6 := by rfl
  rw [List.length_map, h6, ← range_filter_mod6_length, ← List.enum_map_fst raw,
    List.filter_map, List.length_map]
  rfl

/-- Unfolding of `parseForecastCSV` when data rows exist and the TWL column
is found. -/
theorem parseForecastCSV_eq (csv : ForecastCSV) (site : Site) (gfd : Nat → String)
    (idx : Nat) (hne : csv.rows ≠ []) (hcol : twlColumnIndex csv.header = some idx) :
    parseForecastCSV csv site gfd =
      { daily := dailyAux site gfd (rawTWLData csv.rows idx) 0 NUM_DAYS
        hourly := ((rawTWLData csv.rows idx).enum.filter
            (fun p => p.1 % DATA_POINTS_PER_HOUR == 0)).map
          (fun p => round3 p.2) } := by
  unfold parseForecastCSV
  rw [hcol, if_neg]
  simp [hne]

/-!  ## C1: forecast aggregation and the quarter-day truncation policy -/

/-- C1: for every site, a forecast CSV whose header contains the
`total_water_level` column and whose body yields exactly `144 × 7 = 1008`
valid numeric TWL rows produces `daily.length = 7` and
`hourly.length = 168`; one yielding exactly `144 × 3 + 20 = 452` valid rows
produces `daily.length = 3` — the fourth window has `20 < 36` points, so
that day and all subsequent days are dropped entirely. -/
theorem claim_C1_forecast_truncation (site site' : Site)
    (gfd gfd' : Nat → String) (csv csv' : ForecastCSV) (idx idx' : Nat)
    (hcol : twlColumnIndex csv.header = some idx)
    (hlen : (rawTWLData csv.rows idx).length = 1008)
    (hcol' : twlColumnIndex csv'.header = some idx')
    (hlen' : (rawTWLData csv'.rows idx').length = 452) :
    (parseForecastCSV csv site gfd).daily.length = 7 ∧
    (parseForecastCSV csv site gfd).hourly.length = 168 ∧
    (parseForecastCSV csv' site' gfd').daily.length = 3 := by
  have hne : csv.rows ≠ [] := by
    intro h; rw [h] at hlen; simp [rawTWLData] at hlen
  have hne' : csv'.rows ≠ [] := by
    intro h; rw [h] at hlen'; simp [rawTWLData] at hlen'
  rw [parseForecastCSV_eq csv site gfd idx hne hcol,
    parseForecastCSV_eq csv' site' gfd' idx' hne' hcol']
  have h7 : NUM_DAYS = 7 := rfl
  refine ⟨?_, ?_, ?_⟩
  · rw [dailyAux_length, hlen, h7]; omega
  · rw [hourly_length, hlen]
  · rw [dailyAux_length, hlen', h7]; omega

/-- The retained rows of the synthetic forecast body are its TWL values. -/
theorem rawTWLData_replicate (n : Nat) (q : ℚ) :
    rawTWLData (List.replicate n [none, some q]) 1 = List.replicate n q := by
  induction n with
  | zero => rfl
  | succ m ih =>
    rw [List.replicate_succ, List.replicate_succ]
    have hstep : rawTWLData ([none, some q] :: List.replicate m [none, some q]) 1
        = q :: rawTWLData (List.replicate m [none, some q]) 1 := rfl
    rw [hstep, ih]

/-- Witness for C1: a 1008-row body and a 452-row body. -/
theorem claim_C1_witness :
    twlColumnIndex (mkForecastCSV 1008 1).header = some 1 ∧
    (rawTWLData (mkForecastCSV 1008 1).rows 1).length = 1008 ∧
    twlColumnIndex (mkForecastCSV 452 1).header = some 1 ∧
    (rawTWLData (mkForecastCSV 452 1).rows 1).length = 452 ∧
    (parseForecastCSV (mkForecastCSV 1008 1) siteTogo gfdConst).daily.length = 7 ∧
    (parseForecastCSV (mkForecastCSV 1008 1) siteTogo gfdConst).hourly.length = 168 ∧
    (parseForecastCSV (mkForecastCSV 452 1) siteTogo gfdConst).daily.length = 3 := by
  have hcol : twlColumnIndex (mkForecastCSV 1008 1).header = some 1 := by rfl
  have hcol' : twlColumnIndex (mkForecastCSV 452 1).header = some 1 := by rfl
  have hlen : (rawTWLData (mkForecastCSV 1008 1).rows 1).length = 1008 := by
    show (rawTWLData (List.replicate 1008 [none, some 1]) 1).length = 1008
    rw [rawTWLData_replicate, List.length_replicate]
  have hlen' : (rawTWLData (mkForecastCSV 452 1).rows 1).length = 452 := by
    show (rawTWLData (List.replicate 452 [none, some 1]) 1).length = 452
    rw [rawTWLData_replicate, List.length_replicate]
  obtain ⟨h1, h2, h3⟩ := claim_C1_forecast_truncation siteTogo siteTogo gfdConst
    gfdConst (mkForecastCSV 1008 1) (mkForecastCSV 452 1) 1 1 hcol hlen hcol' hlen'
  exact ⟨hcol, hlen, hcol', hlen', h1, h2, h3⟩

/-!  ## C3: the hourly/daily length relation -/

/-- Counterexample to C3: a CSV body with 36 valid rows (a quarter of one
day).  The daily loop keeps day 0 (its window has `36 ≥ 36` points) while
the hourly series has only `⌈36 / 6⌉ = 6` samples, so
`hourly.length = 6 ≠ 24 = 24 * daily.length`: the two series are not
truncated together. -/
theorem claim_C3_counterexample :
    (parseForecastCSV (mkForecastCSV 36 1) siteTogo gfdConst).hourly.length ≠
      24 * (parseForecastCSV (mkForecastCSV 36 1) siteTogo gfdConst).daily.length := by
  have hne : (mkForecastCSV 36 1).rows ≠ [] := by
    intro h
    have := congrArg List.length h
    simp [mkForecastCSV] at this
  have hcol : twlColumnIndex (mkForecastCSV 36 1).header = some 1 := rfl
  rw [parseForecastCSV_eq _ _ _ 1 hne hcol]
  rw [show (mkForecastCSV 36 1).rows = List.replicate 36 [none, some 1] from rfl,
    rawTWLData_replicate]
  rw [hourly_length, dailyAux_length, List.length_replicate]
  have h7 : NUM_DAYS = 7 := rfl
  rw [h7]
  omega

/-- C3 amended: the invariant `hourly.length = 24 * daily.length` holds
whenever the retained row set consists of whole days within the horizon —
exactly `144 * k` valid rows for some `k ≤ 7` (in particular under the
normal complete-data case `k = 7`).  When the data ends mid-day the hourly
series keeps the full retained horizon while the daily loop truncates, and
the equality can fail (see the counterexample). -/
theorem claim_C3_whole_days (site : Site) (gfd : Nat → String)
    (csv : ForecastCSV) (idx k : Nat) (hk : k ≤ NUM_DAYS)
    (hcol : twlColumnIndex csv.header = some idx)
    (hlen : (rawTWLData csv.rows idx).length = DATA_POINTS_PER_DAY * k) :
    (parseForecastCSV csv site gfd).hourly.length =
      24 * (parseForecastCSV csv site gfd).daily.length := by
  by_cases hr : csv.rows = []
  · simp [parseForecastCSV, hr]
  · rw [parseForecastCSV_eq csv site gfd idx hr hcol, hourly_length,
      dailyAux_length, hlen]
    have h7 : NUM_DAYS = 7 := rfl
    have h144 : DATA_POINTS_PER_DAY = 144 := rfl
    rw [h7] at hk
    rw [h144, h7]
    omega

/-- Witness for the amended C3 at `k = 1`: one complete day of data. -/
theorem claim_C3_witness :
    1 ≤ NUM_DAYS ∧
    twlColumnIndex (mkForecastCSV 144 1).header = some 1 ∧
    (rawTWLData (mkForecastCSV 144 1).rows 1).length = DATA_POINTS_PER_DAY * 1 ∧
    (parseForecastCSV (mkForecastCSV 144 1) siteTogo gfdConst).hourly.length =
      24 * (parseForecastCSV (mkForecastCSV 144 1) siteTogo gfdConst).daily.length := by
  have h1 : 1 ≤ NUM_DAYS := by decide
  have hcol : twlColumnIndex (mkForecastCSV 144 1).header = some 1 := rfl
  have hlen : (rawTWLData (mkForecastCSV 144 1).rows 1).length
      = DATA_POINTS_PER_DAY * 1 := by
    show (rawTWLData (List.replicate 144 [none, some 1]) 1).length
      = DATA_POINTS_PER_DAY * 1
    rw [rawTWLData_replicate, List.length_replicate]
    rfl
  exact ⟨h1, hcol, hlen,
    claim_C3_whole_days siteTogo gfdConst (mkForecastCSV 144 1) 1 1 h1 hcol hlen⟩

/-!  ## C9: the daily maximum is folded from 0 -/

/-- The fold seed bounds the fold of `Math.max`. -/
theorem le_foldl_max (b : ℚ) (l : List ℚ) : b ≤ l.foldl (fun m q => max m q) b := by
  induction l generalizing b with
  | nil => exact le_refl b
  | cons x xs ih =>
    rw [List.foldl_cons]
    exact le_trans (le_max_left b x) (ih (max b x))

/-- Folding `Math.max` from 0 over nonpositive values yields 0. -/
theorem foldl_max_nonpos (l : List ℚ) (h : ∀ q ∈ l, q ≤ 0) :
    l.foldl (fun m q => max m q) 0 = 0 := by
  induction l with
  | nil => rfl
  | cons x xs ih =>
    rw [List.foldl_cons, max_eq_left (h x (by simp))]
    exact ih (fun q hq => h q (by simp [hq]))

/-- `Rat.floor` agrees with the floor of the `FloorRing` instance. -/
theorem ratFloor_eq_intFloor (x : ℚ) : x.floor = ⌊x⌋ := by
  rw [Rat.floor_def', Rat.floor_def]

/-- Rounding preserves nonnegativity. -/
theorem round3_nonneg (q : ℚ) (h : 0 ≤ q) : 0 ≤ round3 q := by
  unfold round3
  rw [ratFloor_eq_intFloor]
  have h1 : (0 : ℤ) ≤ ⌊q * 1000 + 1 / 2⌋ := by
    refine Int.floor_nonneg.mpr ?_
    nlinarith
  have h2 : (0 : ℚ) ≤ ((⌊q * 1000 + 1 / 2⌋ : ℤ) : ℚ) := by exact_mod_cast h1
  exact div_nonneg h2 (by norm_num)

/-- `round3 0 = 0`. -/
theorem round3_zero : round3 0 = 0 := by with_unfolding_all rfl

/-- Every entry the daily loop emits carries a nonnegative maximum. -/
theorem mem_dailyAux_nonneg (site : Site) (gfd : Nat → String) (raw : List ℚ) :
    ∀ (rem i : Nat) (e : DailyEntry), e ∈ dailyAux site gfd raw i rem →
      0 ≤ e.max_water_level
  | 0, i, e => by simp [dailyAux]
  | rem + 1, i, e => by
    rw [dailyAux]
    split_ifs with hlt
    · simp
    · intro hmem
      rcases List.mem_cons.mp hmem with he | he
      · rw [he]
        show 0 ≤ round3
          (((raw.drop (i * DATA_POINTS_PER_DAY)).take DATA_POINTS_PER_DAY).foldl
            (fun m q => max m q) 0)
        exact round3_nonneg _ (le_foldl_max 0 _)
      · exact mem_dailyAux_nonneg site gfd raw rem (i + 1) e he

/-- C9: every daily entry emitted by `parseForecastCSV` has
`max_water_level ≥ 0` — the per-window maximum is folded starting from 0 —
and a complete-enough window whose samples are all nonpositive still
reports `max_water_level = 0`, with its risk classified from 0. -/
theorem claim_C9_daily_max_nonneg :
    (∀ (site : Site) (gfd : Nat → String) (csv : ForecastCSV) (e : DailyEntry),
      e ∈ (parseForecastCSV csv site gfd).daily → 0 ≤ e.max_water_level) ∧
    (∀ (site : Site) (gfd : Nat → String) (i : Nat) (window : List ℚ),
      (∀ q ∈ window, q ≤ 0) →
      (mkDailyEntry site gfd i window).max_water_level = 0 ∧
      (mkDailyEntry site gfd i window).risk
        = classifyRisk 0 site.threshold site.risk_class) := by
  constructor
  · intro site gfd csv e he
    unfold parseForecastCSV at he
    split at he
    · simp at he
    · split at he
      · simp at he
      · exact mem_dailyAux_nonneg site gfd _ NUM_DAYS 0 e he
  · intro site gfd i window hw
    constructor
    · show round3 (window.foldl (fun m q => max m q) 0) = 0
      rw [foldl_max_nonpos window hw, round3_zero]
    · show classifyRisk (window.foldl (fun m q => max m q) 0)
        site.threshold site.risk_class = classifyRisk 0 site.threshold site.risk_class
      rw [foldl_max_nonpos window hw]

/-- Witness for C9: 36 samples of `-1` still produce a day whose maximum is
0 and whose risk is classified from 0 ("No Flood" for the Togo site). -/
theorem claim_C9_witness :
    ((⟨"Jan 1", "Monday, Jan 1, 2025", 0, "No Flood"⟩ : DailyEntry) ∈
        (parseForecastCSV (mkForecastCSV 36 (-1)) siteTogo gfdConst).daily) ∧
    (0 : ℚ) ≤ (DailyEntry.mk "Jan 1" "Monday, Jan 1, 2025" 0
        "No Flood").max_water_level ∧
    (∀ q ∈ ([-1] : List ℚ), q ≤ 0) ∧
    (mkDailyEntry siteTogo gfdConst 0 [-1]).max_water_level = 0 ∧
    (mkDailyEntry siteTogo gfdConst 0 [-1]).risk
      = classifyRisk 0 siteTogo.threshold siteTogo.risk_class := by
  have hmem : (⟨"Jan 1", "Monday, Jan 1, 2025", 0, "No Flood"⟩ : DailyEntry) ∈
      (parseForecastCSV (mkForecastCSV 36 (-1)) siteTogo gfdConst).daily :=
    of_decide_eq_true (by with_unfolding_all rfl)
  have hall : ∀ q ∈ ([-1] : List ℚ), q ≤ 0 :=
    of_decide_eq_true (by with_unfolding_all rfl)
  obtain ⟨h1, h2⟩ := claim_C9_daily_max_nonneg.2 siteTogo gfdConst 0 [-1] hall
  exact ⟨hmem, claim_C9_daily_max_nonneg.1 siteTogo gfdConst _ _ hmem, hall, h1, h2⟩

/-!  ## C4 and C5: the historical-event row parser -/

/-- Unfolding of `parseXtremRow` when the peak parses and the date cell is
present. -/
theorem parseXtremRow_some (c : XtremColIdx) (cols : List Cell) (p : ℚ)
    (d : String)
    (hp : (c.twlIdx.bind (fun i => cols[i]?)).bind Cell.num = some p)
    (hd : textAt cols c.dateIdx = some d) :
    parseXtremRow c cols =
      if d ≠ "" ∧ 0 < p ∧ 0 ≤ numAt cols c.tideIdx ∧ 0 ≤ xtremSurge c cols p ∧
          0 ≤ numAt cols c.runupIdx then
        some { id := d
               twl_components := [numAt cols c.tideIdx, xtremSurge c cols p,
                 numAt cols c.runupIdx]
               twl_peak := p
               Hs := numAt cols c.hsIdx
               dur_h := numAt cols c.durIdx }
      else none := by
  simp only [parseXtremRow, hp, hd]

/-- C4: whenever the surge column is absent, or the parsed surge is `≤ 0`,
or `tide + surge + runup > 1.05 * twl_peak`, the emitted event's surge
component is `twl_peak - tide - runup` rounded to 3 decimals; in particular
the row `tide = 1.0`, surge absent, `runup = 0.3`, `twl_peak = 1.5` yields
an event with surge `0.2`. -/
theorem claim_C4_surge_residual :
    (∀ (c : XtremColIdx) (cols : List Cell) (e : HistoricalEvent) (p : ℚ),
      (c.twlIdx.bind (fun i => cols[i]?)).bind Cell.num = some p →
      (c.surgeIdx = none ∨ numAt cols c.surgeIdx ≤ 0 ∨
        numAt cols c.tideIdx + numAt cols c.surgeIdx + numAt cols c.runupIdx
          > p * (105 / 100)) →
      parseXtremRow c cols = some e →
      e.twl_components.getD 1 0
        = round3 (p - numAt cols c.tideIdx - numAt cols c.runupIdx)) ∧
    parseXtremEventCSV csvSurgeAbsent = [eventSurgeResidual] ∧
    eventSurgeResidual.twl_components.getD 1 0 = round3 (3 / 2 - 1 - 3 / 10) ∧
    round3 (3 / 2 - 1 - 3 / 10) = 1 / 5 := by
  refine ⟨?_, ?_, ?_, ?_⟩
  · intro c cols e p hp hcond hrow
    have hsurge : xtremSurge c cols p
        = round3 (p - numAt cols c.tideIdx - numAt cols c.runupIdx) := by
      unfold xtremSurge
      rw [if_pos]
      rcases hcond with h | h | h
      · exact Or.inl h
      · exact Or.inr (Or.inl h)
      · exact Or.inr (Or.inr (by linarith))
    cases hd : textAt cols c.dateIdx with
    | none => simp [parseXtremRow, hp, hd] at hrow
    | some d =>
      rw [parseXtremRow_some c cols p d hp hd] at hrow
      split_ifs at hrow with hacc
      injection hrow with he
      rw [← he]
      show xtremSurge c cols p
        = round3 (p - numAt cols c.tideIdx - numAt cols c.runupIdx)
      exact hsurge
  · with_unfolding_all rfl
  · with_unfolding_all rfl
  · with_unfolding_all rfl

/-- Witness for C4 at the concrete surge-absent row. -/
theorem claim_C4_witness :
    (colsSA.twlIdx.bind (fun i => rowSA[i]?)).bind Cell.num = some (3 / 2) ∧
    colsSA.surgeIdx = none ∧
    parseXtremRow colsSA rowSA = some eventSurgeResidual ∧
    eventSurgeResidual.twl_components.getD 1 0
      = round3 (3 / 2 - numAt rowSA colsSA.tideIdx - numAt rowSA colsSA.runupIdx) := by
  have hp : (colsSA.twlIdx.bind (fun i => rowSA[i]?)).bind Cell.num
      = some (3 / 2) := by with_unfolding_all rfl
  have hs : colsSA.surgeIdx = none := by with_unfolding_all rfl
  have hrow : parseXtremRow colsSA rowSA = some eventSurgeResidual := by
    with_unfolding_all rfl
  exact ⟨hp, hs, hrow,
    claim_C4_surge_residual.1 colsSA rowSA eventSurgeResidual (3 / 2) hp
      (Or.inl hs) hrow⟩

/-- C5: `parseXtremRow` emits an event only if the date string is present
and non-empty, the peak parses to a value `> 0`, and tide, corrected surge
and runup are all `≥ 0` — and the emitted event is built from exactly those
fields.  A row with `twl_peak = -1` is excluded whatever its other fields
(`csvNegPeak` parses to no events at all). -/
theorem claim_C5_row_filter :
    (∀ (c : XtremColIdx) (cols : List Cell) (e : HistoricalEvent),
      parseXtremRow c cols = some e →
      ∃ d p, textAt cols c.dateIdx = some d ∧ d ≠ "" ∧
        (c.twlIdx.bind (fun i => cols[i]?)).bind Cell.num = some p ∧ 0 < p ∧
        0 ≤ numAt cols c.tideIdx ∧ 0 ≤ xtremSurge c cols p ∧
        0 ≤ numAt cols c.runupIdx ∧
        e = { id := d
              twl_components := [numAt cols c.tideIdx, xtremSurge c cols p,
                numAt cols c.runupIdx]
              twl_peak := p
              Hs := numAt cols c.hsIdx
              dur_h := numAt cols c.durIdx }) ∧
    parseXtremEventCSV csvNegPeak = [] := by
  constructor
  · intro c cols e h
    cases hp : (c.twlIdx.bind (fun i => cols[i]?)).bind Cell.num with
    | none => simp [parseXtremRow, hp] at h
    | some p =>
      cases hd : textAt cols c.dateIdx with
      | none => simp [parseXtremRow, hp, hd] at h
      | some d =>
        rw [parseXtremRow_some c cols p d hp hd] at h
        split_ifs at h with hacc
        obtain ⟨h1, h2, h3, h4, h5⟩ := hacc
        injection h with he
        exact ⟨d, p, rfl, h1, rfl, h2, h3, h4, h5, he.symm⟩
  · with_unfolding_all rfl

/-- Witness for C5 at the concrete surge-absent row (the one accepted row of
`csvSurgeAbsent`). -/
theorem claim_C5_witness :
    parseXtremRow colsSA rowSA = some eventSurgeResidual ∧
    ∃ d p, textAt rowSA colsSA.dateIdx = some d ∧ d ≠ "" ∧
      (colsSA.twlIdx.bind (fun i => rowSA[i]?)).bind Cell.num = some p ∧
      0 < p ∧ 0 ≤ numAt rowSA colsSA.tideIdx ∧ 0 ≤ xtremSurge colsSA rowSA p ∧
      0 ≤ numAt rowSA colsSA.runupIdx ∧
      eventSurgeResidual = ⟨d, [numAt rowSA colsSA.tideIdx,
        xtremSurge colsSA rowSA p, numAt rowSA colsSA.runupIdx], p,
        numAt rowSA colsSA.hsIdx, numAt rowSA colsSA.durIdx⟩ := by
  have hrow : parseXtremRow colsSA rowSA = some eventSurgeResidual := by
    with_unfolding_all rfl
  exact ⟨hrow, claim_C5_row_filter.1 colsSA rowSA eventSurgeResidual hrow⟩

/-!  ## C6: date-descending ordering of the cached catalogs -/

/-- The comparator's transitivity/totality give sortedness. -/
theorem sortEventsByDateDesc_pairwise (k : String → ℚ)
    (events : List HistoricalEvent) :
    (sortEventsByDateDesc k events).Pairwise
      (fun a b => k b.id ≤ k a.id) := by
  have h := @List.sorted_mergeSort HistoricalEvent
    (fun a b => decide (k b.id ≤ k a.id))
    (fun a b c hab hbc => by
      simp only [decide_eq_true_eq] at hab hbc ⊢
      exact le_trans hbc hab)
    (fun a b => by
      by_cases hab : k b.id ≤ k a.id
      · simp [hab]
      · simp [le_of_not_le hab])
    events
  exact h.imp (fun hab => of_decide_eq_true hab)

/-- C6: the output of the historical-event parse operation is sorted by date
descending before being returned or cached: any two consecutive events in
the sorted sequence, and in every catalog the fetch-and-parse operation
builds, have non-increasing date keys. -/
theorem claim_C6_sorted_desc :
    (∀ (dateKey : String → ℚ) (events : List HistoricalEvent),
      (sortEventsByDateDesc dateKey events).Pairwise
        (fun a b => dateKey b.id ≤ dateKey a.id)) ∧
    (∀ (env : XtremEnv) (cache : EventCache) (siteId : String),
      cache.lookup siteId = none →
      (fetchAndParseXtremEvents env cache siteId).catalog.events.Pairwise
        (fun a b => env.dateKey b.id ≤ env.dateKey a.id)) := by
  refine ⟨sortEventsByDateDesc_pairwise, ?_⟩
  intro env cache siteId hnone
  unfold fetchAndParseXtremEvents
  simp only [hnone]
  split
  · exact List.Pairwise.nil
  · split
    · exact sortEventsByDateDesc_pairwise env.dateKey _
    · exact List.Pairwise.nil
    · exact List.Pairwise.nil

/-- Witness for C6: a fresh cache and an environment that delivers the
one-row catalog. -/
theorem claim_C6_witness :
    ([] : EventCache).lookup "TOGO" = none ∧
    (fetchAndParseXtremEvents envTogo [] "TOGO").catalog.events.Pairwise
      (fun a b => envTogo.dateKey b.id ≤ envTogo.dateKey a.id) :=
  ⟨rfl, claim_C6_sorted_desc.2 envTogo [] "TOGO" rfl⟩

/-!  ## C7: memoization and failure absorption of the event cache -/

/-- A cache hit returns the stored catalog without fetching. -/
theorem fetch_cache_hit (env : XtremEnv) (cache : EventCache) (siteId : String)
    (c : EventCatalog) (h : cache.lookup siteId = some c) :
    fetchAndParseXtremEvents env cache siteId
      = { catalog := c, cache := cache, fetches := 0 } := by
  unfold fetchAndParseXtremEvents
  simp only [h]

/-- A cache miss stores the returned catalog at the head of the cache. -/
theorem fetch_stores (env : XtremEnv) (cache : EventCache) (siteId : String)
    (h : cache.lookup siteId = none) :
    (fetchAndParseXtremEvents env cache siteId).cache
      = (siteId, (fetchAndParseXtremEvents env cache siteId).catalog) :: cache := by
  unfold fetchAndParseXtremEvents
  simp only [h]
  split
  · rfl
  · split
    · rfl
    · rfl
    · rfl

/-- C7: `getSiteEvents` is memoized per site id.  On a fresh site id the
result is stored under that id; a second call returns the identical stored
catalog and cache with no further event fetch; every failure mode (asset
not resolved, HTTP error, network fault) is absorbed into the canonical
empty catalog; and in the successful case the two sequential calls issue
exactly one event fetch in total. -/
theorem claim_C7_memoized (env : XtremEnv) (cache : EventCache)
    (siteId : String) (hnone : cache.lookup siteId = none) :
    (getSiteEvents env cache siteId).cache.lookup siteId
        = some (getSiteEvents env cache siteId).catalog ∧
    (getSiteEvents env (getSiteEvents env cache siteId).cache siteId).catalog
        = (getSiteEvents env cache siteId).catalog ∧
    (getSiteEvents env (getSiteEvents env cache siteId).cache siteId).cache
        = (getSiteEvents env cache siteId).cache ∧
    (getSiteEvents env (getSiteEvents env cache siteId).cache siteId).fetches
        = 0 ∧
    (env.assetUrl (xtremAssetName siteId) = none →
      (getSiteEvents env cache siteId).catalog = emptyCatalog ∧
      (getSiteEvents env cache siteId).fetches = 0) ∧
    (∀ url s, env.assetUrl (xtremAssetName siteId) = some url →
      env.fetchOutcome url = FetchOutcome.httpError s →
      (getSiteEvents env cache siteId).catalog = emptyCatalog) ∧
    (∀ url, env.assetUrl (xtremAssetName siteId) = some url →
      env.fetchOutcome url = FetchOutcome.networkError →
      (getSiteEvents env cache siteId).catalog = emptyCatalog) ∧
    (∀ url csv, env.assetUrl (xtremAssetName siteId) = some url →
      env.fetchOutcome url = FetchOutcome.ok csv →
      (getSiteEvents env cache siteId).fetches
        + (getSiteEvents env (getSiteEvents env cache siteId).cache
            siteId).fetches = 1) := by
  have hlook : (getSiteEvents env cache siteId).cache.lookup siteId
      = some (getSiteEvents env cache siteId).catalog := by
    show (fetchAndParseXtremEvents env cache siteId).cache.lookup siteId
      = some (fetchAndParseXtremEvents env cache siteId).catalog
    rw [fetch_stores env cache siteId hnone]
    simp [List.lookup]
  have hhit : getSiteEvents env (getSiteEvents env cache siteId).cache siteId
      = { catalog := (getSiteEvents env cache siteId).catalog
          cache := (getSiteEvents env cache siteId).cache
          fetches := 0 } :=
    fetch_cache_hit env _ siteId _ hlook
  refine ⟨hlook, ?_, ?_, ?_, ?_, ?_, ?_, ?_⟩
  · rw [hhit]
  · rw [hhit]
  · rw [hhit]
  · intro hu
    unfold getSiteEvents fetchAndParseXtremEvents
    simp [hnone, hu]
  · intro url s hu ho
    unfold getSiteEvents fetchAndParseXtremEvents
    simp only [hnone, hu, ho]
  · intro url hu ho
    unfold getSiteEvents fetchAndParseXtremEvents
    simp only [hnone, hu, ho]
  · intro url csv hu ho
    rw [hhit]
    show (getSiteEvents env cache siteId).fetches + 0 = 1
    unfold getSiteEvents fetchAndParseXtremEvents
    simp only [hnone, hu, ho]

/-- Witness for C7: two sequential calls for "TOGO" on a fresh cache issue
exactly one event fetch and return the same catalog. -/
theorem claim_C7_witness :
    ([] : EventCache).lookup "TOGO" = none ∧
    envTogo.assetUrl (xtremAssetName "TOGO") = some "https://release/TOGO.csv" ∧
    envTogo.fetchOutcome "https://release/TOGO.csv"
      = FetchOutcome.ok csvSurgeAbsent ∧
    (getSiteEvents envTogo (getSiteEvents envTogo [] "TOGO").cache "TOGO").catalog
      = (getSiteEvents envTogo [] "TOGO").catalog ∧
    (getSiteEvents envTogo [] "TOGO").fetches
      + (getSiteEvents envTogo (getSiteEvents envTogo [] "TOGO").cache
          "TOGO").fetches = 1 := by
  have hnone : ([] : EventCache).lookup "TOGO" = none := rfl
  have h := claim_C7_memoized envTogo [] "TOGO" hnone
  exact ⟨hnone, rfl, rfl, h.2.1,
    h.2.2.2.2.2.2.2 "https://release/TOGO.csv" csvSurgeAbsent rfl rfl⟩

/-!  ## C10: the `count = events.length` invariant of the catalogs -/

/-- A successful lookup finds a pair stored in the cache. -/
theorem lookup_mem (cache : EventCache) (siteId : String) (c : EventCatalog)
    (h : cache.lookup siteId = some c) : ∃ k, (k, c) ∈ cache := by
  induction cache with
  | nil => simp [List.lookup] at h
  | cons p rest ih =>
    obtain ⟨k, v⟩ := p
    simp only [List.lookup] at h
    cases hbe : (siteId == k) with
    | true =>
      rw [hbe] at h
      injection h with hv
      exact ⟨k, by simp [hv]⟩
    | false =>
      rw [hbe] at h
      obtain ⟨k', hk'⟩ := ih h
      exact ⟨k', by simp [hk']⟩

/-- C10: every catalog returned by `getSiteEvents` and every catalog stored
in the cache afterwards satisfies `count = events.length` — for parsed
catalogs `count` is set to the length of the sorted event list, and every
failure path stores the canonical empty result. -/
theorem claim_C10_count_invariant (env : XtremEnv) (cache : EventCache)
    (siteId : String)
    (hc : ∀ p ∈ cache, (Prod.snd p).count = (Prod.snd p).events.length) :
    (getSiteEvents env cache siteId).catalog.count
      = (getSiteEvents env cache siteId).catalog.events.length ∧
    ∀ p ∈ (getSiteEvents env cache siteId).cache,
      (Prod.snd p).count = (Prod.snd p).events.length := by
  unfold getSiteEvents fetchAndParseXtremEvents
  cases hl : cache.lookup siteId with
  | some c =>
    simp only [hl]
    constructor
    · obtain ⟨k, hk⟩ := lookup_mem cache siteId c hl
      exact hc (k, c) hk
    · exact hc
  | none =>
    simp only [hl]
    split
    · refine ⟨rfl, ?_⟩
      intro p hp
      rcases List.mem_cons.mp hp with hEq | hmem
      · simp [hEq, emptyCatalog]
      · exact hc p hmem
    · split
      · refine ⟨rfl, ?_⟩
        intro p hp
        rcases List.mem_cons.mp hp with hEq | hmem
        · simp [hEq, emptyCatalog]
        · exact hc p hmem
      · refine ⟨rfl, ?_⟩
        intro p hp
        rcases List.mem_cons.mp hp with hEq | hmem
        · simp [hEq, emptyCatalog]
        · exact hc p hmem
      · refine ⟨rfl, ?_⟩
        intro p hp
        rcases List.mem_cons.mp hp with hEq | hmem
        · simp [hEq, emptyCatalog]
        · exact hc p hmem

/-- Witness for C10 on a fresh cache. -/
theorem claim_C10_witness :
    (∀ p ∈ ([] : EventCache),
      (Prod.snd p).count = (Prod.snd p).events.length) ∧
    (getSiteEvents envTogo [] "TOGO").catalog.count
      = (getSiteEvents envTogo [] "TOGO").catalog.events.length ∧
    ∀ p ∈ (getSiteEvents envTogo [] "TOGO").cache,
      (Prod.snd p).count = (Prod.snd p).events.length := by
  have h0 : ∀ p ∈ ([] : EventCache),
      (Prod.snd p).count = (Prod.snd p).events.length := by simp
  obtain ⟨h1, h2⟩ := claim_C10_count_invariant envTogo [] "TOGO" h0
  exact ⟨h0, h1, h2⟩

/-!  ## C8: the remote-then-local fallback policy -/

/-- Counterexample to C8: `fetchAndParseForecast` is a caller of asset
resolution, yet when resolution returns `null` it performs no fetch at all
— in particular it never attempts the local path `./ ++ assetName` — and
silently returns empty forecast data instead of erring after a local
retry. -/
theorem claim_C8_counterexample :
    (fetchAndParseForecast envNoAssets "2025-12-06" siteTogo).fetchedUrls = [] ∧
    (DATA_BASE_PATH ++ forecastAssetName "2025-12-06" siteTogo)
      ∉ (fetchAndParseForecast envNoAssets "2025-12-06" siteTogo).fetchedUrls ∧
    (fetchAndParseForecast envNoAssets "2025-12-06" siteTogo).forecastData
      = { daily := [], hourly := [] } := by
  refine ⟨?_, ?_, ?_⟩
  · with_unfolding_all rfl
  · exact of_decide_eq_true (by with_unfolding_all rfl)
  · with_unfolding_all rfl

/-- C8 amended: only the sites-configuration loader implements the
remote-then-local fallback.  When resolution returns `null` it fetches the
fixed local path directly; when the GitHub fetch returns a non-success
status it retries exactly once against the local path; when both return
non-success statuses it fails with the descriptive error carrying the
last-attempted URL and status.  The forecast and event fetchers, by
contrast, perform no local retry: on resolution failure they fetch nothing
at all, and on a non-success status or a network fault they stop after the
one remote fetch — the forecast fetcher's URL trace is empty or the single
remote URL and its data empty, and the event fetcher issues zero or exactly
one event fetch and stores the canonical empty catalog. -/
theorem claim_C8_fallback_policy (env : SitesEnv) (fenv : ForecastEnv)
    (runDate : String) (site : Site) :
    (env.assetUrl SITES_FILENAME = none →
      (loadSitesConfig env).fetchedUrls = [DATA_BASE_PATH ++ SITES_FILENAME]) ∧
    (∀ url status, env.assetUrl SITES_FILENAME = some url →
      env.fetchOutcome url = SitesFetchOutcome.httpError status →
      (loadSitesConfig env).fetchedUrls
        = [url, DATA_BASE_PATH ++ SITES_FILENAME]) ∧
    (∀ url status s2, env.assetUrl SITES_FILENAME = some url →
      env.fetchOutcome url = SitesFetchOutcome.httpError status →
      env.fetchOutcome (DATA_BASE_PATH ++ SITES_FILENAME)
        = SitesFetchOutcome.httpError s2 →
      (loadSitesConfig env).outcome
        = Except.error (mkSitesLoadError (DATA_BASE_PATH ++ SITES_FILENAME) s2)) ∧
    (fenv.assetUrl (forecastAssetName runDate site) = none →
      (fetchAndParseForecast fenv runDate site).fetchedUrls = [] ∧
      (fetchAndParseForecast fenv runDate site).forecastData
        = { daily := [], hourly := [] }) ∧
    (∀ url status, fenv.assetUrl (forecastAssetName runDate site) = some url →
      fenv.fetchOutcome url = ForecastFetchOutcome.httpError status →
      (fetchAndParseForecast fenv runDate site).fetchedUrls = [url] ∧
      (fetchAndParseForecast fenv runDate site).forecastData
        = { daily := [], hourly := [] }) ∧
    (∀ url, fenv.assetUrl (forecastAssetName runDate site) = some url →
      fenv.fetchOutcome url = ForecastFetchOutcome.networkError →
      (fetchAndParseForecast fenv runDate site).fetchedUrls = [url] ∧
      (fetchAndParseForecast fenv runDate site).forecastData
        = { daily := [], hourly := [] }) ∧
    (∀ (xenv : XtremEnv) (cache : EventCache) (siteId : String),
      cache.lookup siteId = none →
      (xenv.assetUrl (xtremAssetName siteId) = none →
        (fetchAndParseXtremEvents xenv cache siteId).catalog = emptyCatalog ∧
        (fetchAndParseXtremEvents xenv cache siteId).fetches = 0) ∧
      (∀ url s, xenv.assetUrl (xtremAssetName siteId) = some url →
        xenv.fetchOutcome url = FetchOutcome.httpError s →
        (fetchAndParseXtremEvents xenv cache siteId).catalog = emptyCatalog ∧
        (fetchAndParseXtremEvents xenv cache siteId).fetches = 1) ∧
      (∀ url, xenv.assetUrl (xtremAssetName siteId) = some url →
        xenv.fetchOutcome url = FetchOutcome.networkError →
        (fetchAndParseXtremEvents xenv cache siteId).catalog = emptyCatalog ∧
        (fetchAndParseXtremEvents xenv cache siteId).fetches = 1)) := by
  refine ⟨?_, ?_, ?_, ?_, ?_, ?_, ?_⟩
  · intro hu
    unfold loadSitesConfig
    simp only [hu]
    split <;> rfl
  · intro url status hu ho
    unfold loadSitesConfig
    simp only [hu, Option.getD_some, ho, Option.isSome_some, if_true]
    split <;> rfl
  · intro url status s2 hu ho hl
    unfold loadSitesConfig
    simp only [hu, Option.getD_some, ho, Option.isSome_some, if_true, hl]
  · intro hu
    unfold fetchAndParseForecast
    simp [hu]
  · intro url status hu ho
    unfold fetchAndParseForecast
    simp [hu, ho]
  · intro url hu ho
    unfold fetchAndParseForecast
    simp [hu, ho]
  · intro xenv cache siteId hnone
    refine ⟨?_, ?_, ?_⟩
    · intro hu
      unfold fetchAndParseXtremEvents
      simp [hnone, hu]
    · intro url s hu ho
      unfold fetchAndParseXtremEvents
      simp [hnone, hu, ho]
    · intro url hu ho
      unfold fetchAndParseXtremEvents
      simp [hnone, hu, ho]

/-- Witness for the amended C8: a GitHub 404 followed by a local 500, a
forecast resolution failure, a forecast network fault, and an event-catalog
HTTP failure on a fresh cache. -/
theorem claim_C8_witness :
    (loadSitesConfig envSitesBothFail).fetchedUrls
      = ["https://release/sites_file.json", DATA_BASE_PATH ++ SITES_FILENAME] ∧
    (loadSitesConfig envSitesBothFail).outcome
      = Except.error (mkSitesLoadError (DATA_BASE_PATH ++ SITES_FILENAME) 500) ∧
    (fetchAndParseForecast envNoAssets "2025-12-06" siteTogo).fetchedUrls
      = [] ∧
    (fetchAndParseForecast envForecastNetFail "2025-12-06" siteTogo).fetchedUrls
      = ["https://release/twl.csv"] ∧
    (fetchAndParseXtremEvents envXtremHttpFail [] "TOGO").catalog
      = emptyCatalog ∧
    (fetchAndParseXtremEvents envXtremHttpFail [] "TOGO").fetches = 1 := by
  have h := claim_C8_fallback_policy envSitesBothFail envNoAssets "2025-12-06"
    siteTogo
  have h2 := claim_C8_fallback_policy envSitesBothFail envForecastNetFail
    "2025-12-06" siteTogo
  have hu : envSitesBothFail.assetUrl SITES_FILENAME
      = some "https://release/sites_file.json" := rfl
  have ho : envSitesBothFail.fetchOutcome "https://release/sites_file.json"
      = SitesFetchOutcome.httpError 404 := by with_unfolding_all rfl
  have hl : envSitesBothFail.fetchOutcome (DATA_BASE_PATH ++ SITES_FILENAME)
      = SitesFetchOutcome.httpError 500 := by with_unfolding_all rfl
  have hev := (h.2.2.2.2.2.2 envXtremHttpFail [] "TOGO" rfl).2.1
    "https://release/TOGO.csv" 404 rfl rfl
  exact ⟨h.2.1 "https://release/sites_file.json" 404 hu ho,
    h.2.2.1 "https://release/sites_file.json" 404 500 hu ho hl,
    (h.2.2.2.1 rfl).1,
    (h2.2.2.2.2.2.1 "https://release/twl.csv" rfl rfl).1,
    hev.1, hev.2⟩

end SafeCoast
